import Mathlib

/-!
Shallow embedding of the Cueron Client API backend (`src/schemas.py`,
`src/main.py`): a FastAPI service exposing create/list endpoints over
sites, assets, jobs, invoices and feedback, backed by a document store.

Modelling conventions:
* ISO-formatted timestamps are opaque strings; the handler's call to
  `datetime.now` becomes an explicit `now` argument.
* The document store (`database.py` is not part of `src/`) is a record of
  per-collection association lists `(generated id, entity)` plus a counter
  for store-generated identifiers; the ambient global `db` handle becomes
  an `Option DB` argument threaded through every handler, `none` meaning
  the store is not configured.
* Pydantic validation of a request body is a function from a payload
  record (every field optional, to model missing JSON keys) to
  `Except String` of the typed entity; the FastAPI layer turns a
  validation error into a 422 client error before the handler runs, and
  an unhandled exception inside a handler into a 500 server error.
-/

set_option maxRecDepth 8192

namespace Cueron

/-- ISO-formatted timestamps are modelled as opaque strings. -/
abbrev Timestamp := String

/-- Free-form `dict` entries (`List[dict]` fields) are modelled as string maps. -/
abbrev JDict := List (String × String)

/-! ## Data model (`src/schemas.py`) -/

/-- schemas.py `class Site`. -/
structure Site where
  name : String
  address : Option String := none
  city : Option String := none
  state : Option String := none
  pincode : Option String := none
  deriving DecidableEq, Repr

/-- schemas.py `class Asset`; `status` is constrained by `validateAsset`
to the literal set `assetStatuses`. -/
structure Asset where
  site_id : String
  name : String
  «type» : String
  status : String := "active"
  serial_number : Option String := none
  model : Option String := none
  deriving DecidableEq, Repr

/-- schemas.py `class JobRequest` (input-only shape of `POST /jobs`). -/
structure JobRequest where
  service_type : String
  site_id : String
  asset_ids : List String := []
  description : Option String := none
  schedule : Option Timestamp := none
  media_urls : List String := []
  deriving DecidableEq, Repr

/-- One entry of `Job.timeline`: a `{"status": ..., "at": ...}` record. -/
structure TimelineEntry where
  status : String
  «at» : Timestamp
  deriving DecidableEq, Repr

/-- schemas.py `class Job`; `service_type` and `status` are constrained by
validation to `serviceTypes` and `jobStatuses`. -/
structure Job where
  customer_id : Option String := none
  service_type : String
  status : String := "New"
  site_id : String
  asset_ids : List String := []
  description : Option String := none
  scheduled_for : Option Timestamp := none
  assigned_technician_id : Option String := none
  timeline : List TimelineEntry := []
  deriving DecidableEq, Repr

/-- schemas.py `class Invoice`; the float `amount` is modelled as a rational. -/
structure Invoice where
  job_id : String
  amount : Rat
  due_date : Option Timestamp := none
  status : String := "unpaid"
  line_items : List JDict := []
  deriving DecidableEq, Repr

/-- schemas.py `class Feedback`; the rating ranges are enforced by
`validateFeedback`. -/
structure Feedback where
  job_id : String
  rating_overall : Int
  rating_engineer : Option Int := none
  comments : Option String := none
  request_follow_up : Bool := false
  deriving DecidableEq, Repr

/-- Allowed literals of `Asset.status`. -/
def assetStatuses : List String := ["active", "inactive", "maintenance"]

/-- Allowed literals of `JobRequest.service_type` and `Job.service_type`. -/
def serviceTypes : List String := ["AMC", "Repair", "Installation", "Emergency"]

/-- Allowed literals of `Job.status`. -/
def jobStatuses : List String := ["New", "Assigned", "Travelling", "In Progress", "Closed"]

/-- Allowed literals of `Invoice.status`. -/
def invoiceStatuses : List String := ["unpaid", "paid", "overdue"]

/-! ## Raw request payloads and pydantic validation

A payload record has one `Option` field per schema field: `none` models a
missing JSON key. Validation follows pydantic: a missing required field or
a `Literal`/range violation is rejected with an error message (no
coercion); optional fields fall back to the schema defaults. -/

/-- Raw JSON body of `POST /assets` before validation. -/
structure AssetPayload where
  site_id : Option String := none
  name : Option String := none
  «type» : Option String := none
  status : Option String := none
  serial_number : Option String := none
  model : Option String := none
  deriving DecidableEq, Repr

/-- Pydantic validation of an `Asset` body: `site_id`, `name`, `type`
required; `status` defaults to `"active"` and must lie in `assetStatuses`. -/
def validateAsset (p : AssetPayload) : Except String Asset :=
  match p.site_id with
  | none => .error "site_id: field required"
  | some sid =>
    match p.name with
    | none => .error "name: field required"
    | some nm =>
      match p.«type» with
      | none => .error "type: field required"
      | some ty =>
        let st := p.status.getD "active"
        if st ∈ assetStatuses then
          .ok { site_id := sid, name := nm, «type» := ty, status := st,
                serial_number := p.serial_number, model := p.model }
        else .error "status: value is not a permitted literal"

/-- Raw JSON body of `POST /jobs` before validation. -/
structure JobRequestPayload where
  service_type : Option String := none
  site_id : Option String := none
  asset_ids : Option (List String) := none
  description : Option String := none
  schedule : Option Timestamp := none
  media_urls : Option (List String) := none
  deriving DecidableEq, Repr

/-- Pydantic validation of a `JobRequest` body: `service_type` (in
`serviceTypes`) and `site_id` required; list fields default to `[]`. -/
def validateJobRequest (p : JobRequestPayload) : Except String JobRequest :=
  match p.service_type with
  | none => .error "service_type: field required"
  | some st =>
    if st ∈ serviceTypes then
      match p.site_id with
      | none => .error "site_id: field required"
      | some sid =>
        .ok { service_type := st, site_id := sid,
              asset_ids := p.asset_ids.getD [],
              description := p.description,
              schedule := p.schedule,
              media_urls := p.media_urls.getD [] }
    else .error "service_type: value is not a permitted literal"

/-- Raw JSON body of `POST /invoices` before validation. -/
structure InvoicePayload where
  job_id : Option String := none
  amount : Option Rat := none
  due_date : Option Timestamp := none
  status : Option String := none
  line_items : Option (List JDict) := none
  deriving DecidableEq, Repr

/-- Pydantic validation of an `Invoice` body: `job_id` and `amount`
required; `status` defaults to `"unpaid"` and must lie in
`invoiceStatuses`. -/
def validateInvoice (p : InvoicePayload) : Except String Invoice :=
  match p.job_id with
  | none => .error "job_id: field required"
  | some j =>
    match p.amount with
    | none => .error "amount: field required"
    | some amt =>
      let st := p.status.getD "unpaid"
      if st ∈ invoiceStatuses then
        .ok { job_id := j, amount := amt, due_date := p.due_date,
              status := st, line_items := p.line_items.getD [] }
      else .error "status: value is not a permitted literal"

/-- Raw JSON body of `POST /feedback` before validation. -/
structure FeedbackPayload where
  job_id : Option String := none
  rating_overall : Option Int := none
  rating_engineer : Option Int := none
  comments : Option String := none
  request_follow_up : Option Bool := none
  deriving DecidableEq, Repr

/-- Pydantic validation of a `Feedback` body: `job_id` and
`rating_overall` required, ratings constrained to `1 ≤ r ≤ 5`
(`Field(..., ge=1, le=5)`); `request_follow_up` defaults to `false`. -/
def validateFeedback (p : FeedbackPayload) : Except String Feedback :=
  match p.job_id with
  | none => .error "job_id: field required"
  | some j =>
    match p.rating_overall with
    | none => .error "rating_overall: field required"
    | some r =>
      if 1 ≤ r ∧ r ≤ 5 then
        match p.rating_engineer with
        | none =>
          .ok { job_id := j, rating_overall := r, rating_engineer := none,
                comments := p.comments,
                request_follow_up := p.request_follow_up.getD false }
        | some e =>
          if 1 ≤ e ∧ e ≤ 5 then
            .ok { job_id := j, rating_overall := r, rating_engineer := some e,
                  comments := p.comments,
                  request_follow_up := p.request_follow_up.getD false }
          else .error "rating_engineer: value out of range [1, 5]"
      else .error "rating_overall: value out of range [1, 5]"

/-! ## The document store -/

/-- The configured document store: one collection per entity, each an
ordered list of `(store-generated identifier, document)` pairs, with a
counter supplying fresh identifiers at insert time. -/
structure DB where
  site : List (Nat × Site) := []
  asset : List (Nat × Asset) := []
  job : List (Nat × Job) := []
  invoice : List (Nat × Invoice) := []
  feedback : List (Nat × Feedback) := []
  nextId : Nat := 0
  deriving DecidableEq, Repr

/-- Fixed detail string of the store-unconfigured server error
(main.py line 32 and line 103). -/
def dbUnconfigured : String := "Database not configured"

/-- Modelled from the spec: `database.py` (the persistence gateway) is not
under `src/`. Per §4.2, insert-one appends the validated document and
returns the store-generated identifier as an opaque string. -/
def insertDoc {α : Type} (docs : List (Nat × α)) (freshId : Nat) (x : α) :
    String × List (Nat × α) :=
  (toString freshId, docs ++ [(freshId, x)])

/-- String-valued field lookup on a stored `Site`, used for equality filters. -/
def Site.getField (s : Site) (k : String) : Option String :=
  match k with
  | "name" => some s.name
  | "address" => s.address
  | "city" => s.city
  | "state" => s.state
  | "pincode" => s.pincode
  | _ => none

/-- String-valued field lookup on a stored `Asset`, used for equality filters. -/
def Asset.getField (a : Asset) (k : String) : Option String :=
  match k with
  | "site_id" => some a.site_id
  | "name" => some a.name
  | "type" => some a.«type»
  | "status" => some a.status
  | "serial_number" => a.serial_number
  | "model" => a.model
  | _ => none

/-- String-valued field lookup on a stored `Job`, used for equality filters. -/
def Job.getField (j : Job) (k : String) : Option String :=
  match k with
  | "customer_id" => j.customer_id
  | "service_type" => some j.service_type
  | "status" => some j.status
  | "site_id" => some j.site_id
  | "description" => j.description
  | "scheduled_for" => j.scheduled_for
  | "assigned_technician_id" => j.assigned_technician_id
  | _ => none

/-- String-valued field lookup on a stored `Invoice`, used for equality filters. -/
def Invoice.getField (i : Invoice) (k : String) : Option String :=
  match k with
  | "job_id" => some i.job_id
  | "status" => some i.status
  | "due_date" => i.due_date
  | _ => none

/-- A document matches an equality-filter mapping when every
`(field, value)` pair of the mapping equals the document's field; the
empty mapping matches everything (spec §4.2). -/
def matchesFilt {α : Type} (getF : α → String → Option String)
    (x : α) (filt : List (String × String)) : Bool :=
  filt.all (fun kv => getF x kv.1 == some kv.2)

/-- Modelled from the spec: `database.py`'s `get_documents` is not under
`src/`. Per §4.2, find-many takes an equality-filter mapping (empty
mapping means no filtering) and a result-count limit, and returns the
matching documents in storage order. -/
def get_documents {α : Type} (docs : List (Nat × α))
    (getF : α → String → Option String)
    (filt : List (String × String)) (limit : Int) : List (Nat × α) :=
  (docs.filter (fun p => matchesFilt getF p.2 filt)).take limit.toNat

/-- The filter dict built by the list handlers:
`{"key": v} if v else {}` — Python truthiness, so both a missing
parameter and the empty string produce the empty mapping. -/
def mkFilt (key : String) (v : Option String) : List (String × String) :=
  match v with
  | none => []
  | some s => if s = "" then [] else [(key, s)]

/-! ## HTTP layer -/

/-- Outcome of a request: a successful body, a 4xx client error (pydantic
validation failure), or a 5xx server error (`HTTPException(500, ...)` or
an unhandled exception inside the handler). -/
inductive HResp (α : Type) where
  | ok (v : α)
  | clientError (code : Nat) (detail : String)
  | serverError (code : Nat) (detail : String)
  deriving DecidableEq, Repr

/-- Response body of the create endpoints: `{"_id": inserted_id}`. -/
structure CreateResp where
  _id : String
  deriving DecidableEq, Repr

/-- Response body of `POST /jobs`: `{"job_id": ..., "status": ...}`. -/
structure JobResp where
  job_id : String
  status : String
  deriving DecidableEq, Repr

/-- A document as returned by the list endpoints: the store-generated
identifier converted to a string, plus the stored fields. -/
structure OutDoc (α : Type) where
  _id : String
  data : α
  deriving DecidableEq, Repr

/-- Response body of `GET /health`. -/
structure HealthResp where
  status : String
  time : Timestamp
  deriving DecidableEq, Repr

/-- Response body of `GET /` (`class Message`). -/
structure Message where
  message : String
  deriving DecidableEq, Repr

/-- Response body of `POST /echo`. -/
structure EchoResp where
  received : JDict
  time : Timestamp
  deriving DecidableEq, Repr

/-- Response body of `GET /test` (connectivity diagnostic), reduced to the
fields that depend on the store handle. -/
structure TestResp where
  backend : String
  database : String
  connection_status : String
  collections : List String
  deriving DecidableEq, Repr

/-- The `for d in docs: d["_id"] = str(d.get("_id"))` loop of every list
handler: stringify the store-generated identifier of each returned record. -/
def stringifyIds {α : Type} (docs : List (Nat × α)) : List (OutDoc α) :=
  docs.map (fun p => { _id := toString p.1, data := p.2 })

/-- Validity check of `bson.ObjectId(s)` on a string argument: exactly 24
hexadecimal characters, otherwise `InvalidId` is raised. -/
def objectIdValid (s : String) : Bool :=
  s.length = 24 && s.toList.all (fun c => c.isDigit || ("abcdefABCDEF".toList.contains c))

/-! ## Route handlers (`src/main.py`)

Each handler takes the ambient store handle (`Option DB`) and the typed,
already-validated body; the `post_*` endpoint functions below compose
pydantic validation with the handler, as FastAPI does. -/

/-- main.py `read_root` (`GET /`). -/
def read_root : HResp Message :=
  .ok { message := "Hello from Cueron Backend!" }

/-- main.py `health` (`GET /health`): the handler body never touches the
store handle; the `dbh` argument records only that the ambient global is
in scope. -/
def health (_dbh : Option DB) (now : Timestamp) : HResp HealthResp :=
  .ok { status := "ok", time := now }

/-- main.py `echo` (`POST /echo`). -/
def echo (payload : JDict) (now : Timestamp) : HResp EchoResp :=
  .ok { received := payload, time := now }

/-- main.py `test_database` (`GET /test`): reports connectivity instead of
failing when the store is absent. -/
def test_database (dbh : Option DB) : HResp TestResp :=
  match dbh with
  | none =>
    .ok { backend := "✅ Running", database := "❌ Not Initialized",
          connection_status := "Not Connected", collections := [] }
  | some _ =>
    .ok { backend := "✅ Running", database := "✅ Connected & Working",
          connection_status := "Connected",
          collections := ["site", "asset", "job", "invoice", "feedback"] }

/-- main.py `schema_info` (`GET /schema`): a static collection listing. -/
def schema_info : HResp (List String) :=
  .ok ["site", "asset", "job", "invoice", "feedback"]

/-- main.py `create_site` (`POST /sites`): insert and return the generated
identifier. The store-unconfigured failure is that of the spec-modelled
gateway (§4.2: operations on an unconfigured store signal a server error). -/
def create_site (dbh : Option DB) (site : Site) : HResp CreateResp × Option DB :=
  match dbh with
  | none => (.serverError 500 dbUnconfigured, none)
  | some db =>
    let r := insertDoc db.site db.nextId site
    (.ok { _id := r.1 }, some { db with site := r.2, nextId := db.nextId + 1 })

/-- main.py `list_sites` (`GET /sites`): default limit 100, no filter
field, identifiers stringified. -/
def list_sites (dbh : Option DB) (limit : Option Int) : HResp (List (OutDoc Site)) :=
  let lim := limit.getD 100
  match dbh with
  | none => .serverError 500 dbUnconfigured
  | some db => .ok (stringifyIds (get_documents db.site Site.getField [] lim))

/-- main.py `create_asset` (`POST /assets`): after the explicit
store-handle check, the handler evaluates
`db["site"].find_one({"_id": ObjectId(asset.site_id)}) if asset.site_id else None`;
the `find_one` result is discarded, but `ObjectId` raises `InvalidId` on a
truthy `site_id` that is not 24 hex characters, which surfaces as an
unhandled-exception 500. -/
def create_asset (dbh : Option DB) (asset : Asset) : HResp CreateResp × Option DB :=
  match dbh with
  | none => (.serverError 500 dbUnconfigured, none)
  | some db =>
    if asset.site_id = "" then
      let r := insertDoc db.asset db.nextId asset
      (.ok { _id := r.1 }, some { db with asset := r.2, nextId := db.nextId + 1 })
    else if objectIdValid asset.site_id then
      let r := insertDoc db.asset db.nextId asset
      (.ok { _id := r.1 }, some { db with asset := r.2, nextId := db.nextId + 1 })
    else
      (.serverError 500 "bson.errors.InvalidId", some db)

/-- main.py `list_assets` (`GET /assets`): default limit 200, optional
`site_id` equality filter built by Python truthiness, identifiers
stringified. -/
def list_assets (dbh : Option DB) (limit : Option Int) (site_id : Option String) :
    HResp (List (OutDoc Asset)) :=
  let lim := limit.getD 200
  let filt := mkFilt "site_id" site_id
  match dbh with
  | none => .serverError 500 dbUnconfigured
  | some db => .ok (stringifyIds (get_documents db.asset Asset.getField filt lim))

/-- main.py `create_job` lines 122-131: the `Job(...)` synthesis from the
`JobRequest`, with `status` left at its `"New"` default, null customer and
technician, and a one-element timeline stamped with the creation time. -/
def mkJob (req : JobRequest) (now : Timestamp) : Job :=
  { customer_id := none,
    service_type := req.service_type,
    status := "New",
    site_id := req.site_id,
    asset_ids := req.asset_ids,
    description := req.description,
    scheduled_for := req.schedule,
    assigned_technician_id := none,
    timeline := [{ status := "New", «at» := now }] }

/-- main.py `create_job` (`POST /jobs`): synthesize the `Job`, insert it,
and answer `{"job_id": inserted_id, "status": "New"}`. -/
def create_job (dbh : Option DB) (req : JobRequest) (now : Timestamp) :
    HResp JobResp × Option DB :=
  match dbh with
  | none => (.serverError 500 dbUnconfigured, none)
  | some db =>
    let r := insertDoc db.job db.nextId (mkJob req now)
    (.ok { job_id := r.1, status := "New" },
     some { db with job := r.2, nextId := db.nextId + 1 })

/-- main.py `list_jobs` (`GET /jobs`): default limit 200, optional
`status` equality filter built by Python truthiness, identifiers
stringified. -/
def list_jobs (dbh : Option DB) (limit : Option Int) (status : Option String) :
    HResp (List (OutDoc Job)) :=
  let lim := limit.getD 200
  let filt := mkFilt "status" status
  match dbh with
  | none => .serverError 500 dbUnconfigured
  | some db => .ok (stringifyIds (get_documents db.job Job.getField filt lim))

/-- main.py `create_invoice` (`POST /invoices`). -/
def create_invoice (dbh : Option DB) (invoice : Invoice) : HResp CreateResp × Option DB :=
  match dbh with
  | none => (.serverError 500 dbUnconfigured, none)
  | some db =>
    let r := insertDoc db.invoice db.nextId invoice
    (.ok { _id := r.1 }, some { db with invoice := r.2, nextId := db.nextId + 1 })

/-- main.py `list_invoices` (`GET /invoices`): default limit 200, optional
`status` equality filter built by Python truthiness, identifiers
stringified. -/
def list_invoices (dbh : Option DB) (limit : Option Int) (status : Option String) :
    HResp (List (OutDoc Invoice)) :=
  let lim := limit.getD 200
  let filt := mkFilt "status" status
  match dbh with
  | none => .serverError 500 dbUnconfigured
  | some db => .ok (stringifyIds (get_documents db.invoice Invoice.getField filt lim))

/-- main.py `submit_feedback` (`POST /feedback`). -/
def submit_feedback (dbh : Option DB) (feedback : Feedback) : HResp CreateResp × Option DB :=
  match dbh with
  | none => (.serverError 500 dbUnconfigured, none)
  | some db =>
    let r := insertDoc db.feedback db.nextId feedback
    (.ok { _id := r.1 }, some { db with feedback := r.2, nextId := db.nextId + 1 })

/-! ## Full endpoints: FastAPI validation composed with the handlers -/

/-- `POST /assets` end to end: pydantic validation, then `create_asset`;
a validation failure is a 422 with no handler run and no store write. -/
def post_assets (dbh : Option DB) (p : AssetPayload) : HResp CreateResp × Option DB :=
  match validateAsset p with
  | .error m => (.clientError 422 m, dbh)
  | .ok a => create_asset dbh a

/-- `POST /jobs` end to end: pydantic validation, then `create_job`. -/
def post_jobs (dbh : Option DB) (p : JobRequestPayload) (now : Timestamp) :
    HResp JobResp × Option DB :=
  match validateJobRequest p with
  | .error m => (.clientError 422 m, dbh)
  | .ok req => create_job dbh req now

/-- `POST /invoices` end to end: pydantic validation, then `create_invoice`. -/
def post_invoices (dbh : Option DB) (p : InvoicePayload) : HResp CreateResp × Option DB :=
  match validateInvoice p with
  | .error m => (.clientError 422 m, dbh)
  | .ok inv => create_invoice dbh inv

/-- `POST /feedback` end to end: pydantic validation, then `submit_feedback`. -/
def post_feedback (dbh : Option DB) (p : FeedbackPayload) : HResp CreateResp × Option DB :=
  match validateFeedback p with
  | .error m => (.clientError 422 m, dbh)
  | .ok fb => submit_feedback dbh fb

/-! ## Concrete fixtures used by witnesses and counterexamples -/

/-- A stored asset whose `site_id` is the non-empty string `"a"`. -/
def assetA : Asset := { site_id := "a", name := "pump", «type» := "HVAC" }

/-- A store holding exactly `assetA` under identifier 0. -/
def dbA : DB := { asset := [(0, assetA)] }

/-- A stored site named `"HQ"`. -/
def siteC : Site := { name := "HQ" }

/-- A store holding exactly `siteC` under identifier 0. -/
def dbC : DB := { site := [(0, siteC)] }

/-! ## Helper lemmas -/

/-- A payload missing a required `Asset` field or carrying an out-of-set
`status` literal fails pydantic validation. -/
lemma validateAsset_error_of_bad (p : AssetPayload)
    (h : p.site_id = none ∨ p.name = none ∨ p.«type» = none ∨
      ∃ s, p.status = some s ∧ s ∉ assetStatuses) :
    ∃ m, validateAsset p = Except.error m := by
  cases hsid : p.site_id with
  | none => simp [validateAsset, hsid]
  | some sid =>
    cases hnm : p.name with
    | none => simp [validateAsset, hsid, hnm]
    | some nm =>
      cases hty : p.«type» with
      | none => simp [validateAsset, hsid, hnm, hty]
      | some ty =>
        rcases h with h | h | h | ⟨s, hs, hns⟩
        · rw [h] at hsid; cases hsid
        · rw [h] at hnm; cases hnm
        · rw [h] at hty; cases hty
        · simp [validateAsset, hsid, hnm, hty, hs, hns]

/-- A payload missing a required `JobRequest` field or carrying an
out-of-set `service_type` literal fails pydantic validation. -/
lemma validateJobRequest_error_of_bad (p : JobRequestPayload)
    (h : p.service_type = none ∨ p.site_id = none ∨
      ∃ s, p.service_type = some s ∧ s ∉ serviceTypes) :
    ∃ m, validateJobRequest p = Except.error m := by
  cases hst : p.service_type with
  | none => simp [validateJobRequest, hst]
  | some st =>
    rcases h with h | h | ⟨s, hs, hns⟩
    · rw [h] at hst; cases hst
    · by_cases hin : st ∈ serviceTypes
      · simp [validateJobRequest, hst, hin, h]
      · simp [validateJobRequest, hst, hin]
    · rw [hst] at hs
      injection hs with hs2
      subst hs2
      simp [validateJobRequest, hst, hns]

/-- A payload missing a required `Invoice` field or carrying an out-of-set
`status` literal fails pydantic validation. -/
lemma validateInvoice_error_of_bad (p : InvoicePayload)
    (h : p.job_id = none ∨ p.amount = none ∨
      ∃ s, p.status = some s ∧ s ∉ invoiceStatuses) :
    ∃ m, validateInvoice p = Except.error m := by
  cases hj : p.job_id with
  | none => simp [validateInvoice, hj]
  | some j =>
    cases ha : p.amount with
    | none => simp [validateInvoice, hj, ha]
    | some amt =>
      rcases h with h | h | ⟨s, hs, hns⟩
      · rw [h] at hj; cases hj
      · rw [h] at ha; cases ha
      · simp [validateInvoice, hj, ha, hs, hns]

/-- A `Feedback` payload whose `rating_overall` lies outside `[1, 5]`
fails pydantic validation. -/
lemma validateFeedback_error_overall (p : FeedbackPayload) (r : Int)
    (hr : p.rating_overall = some r) (hout : r < 1 ∨ 5 < r) :
    ∃ m, validateFeedback p = Except.error m := by
  cases hj : p.job_id with
  | none => simp [validateFeedback, hj]
  | some j =>
    have hcond : ¬(1 ≤ r ∧ r ≤ 5) := by omega
    simp [validateFeedback, hj, hr, hcond]

/-- A `Feedback` payload whose `rating_engineer` lies outside `[1, 5]`
fails pydantic validation. -/
lemma validateFeedback_error_engineer (p : FeedbackPayload) (r : Int)
    (hr : p.rating_engineer = some r) (hout : r < 1 ∨ 5 < r) :
    ∃ m, validateFeedback p = Except.error m := by
  cases hj : p.job_id with
  | none => simp [validateFeedback, hj]
  | some j =>
    cases ho : p.rating_overall with
    | none => simp [validateFeedback, hj, ho]
    | some r0 =>
      by_cases hc : 1 ≤ r0 ∧ r0 ≤ 5
      · have hce : ¬(1 ≤ r ∧ r ≤ 5) := by omega
        simp [validateFeedback, hj, ho, hr, hc, hce]
      · simp [validateFeedback, hj, ho, hc]

/-- Every document of a `get_documents` answer is a stored document
matching the filter. -/
lemma mem_get_documents {α : Type} (getF : α → String → Option String)
    (docs : List (Nat × α)) (filt : List (String × String)) (lim : Int)
    (p : Nat × α) (hp : p ∈ get_documents docs getF filt lim) :
    p ∈ docs ∧ matchesFilt getF p.2 filt = true := by
  unfold get_documents at hp
  have h1 := List.mem_of_mem_take hp
  exact ⟨(List.mem_filter.mp h1).1, (List.mem_filter.mp h1).2⟩

/-- Every record of a stringified answer arises from a stored pair. -/
lemma mem_stringifyIds {α : Type} (docs : List (Nat × α)) (d : OutDoc α)
    (hd : d ∈ stringifyIds docs) :
    ∃ p, p ∈ docs ∧ d = { _id := toString p.1, data := p.2 } := by
  unfold stringifyIds at hd
  obtain ⟨p, hp, h⟩ := List.mem_map.mp hd
  exact ⟨p, hp, h.symm⟩

/-- Matching a one-pair filter means the document's field equals the value. -/
lemma matchesFilt_singleton {α : Type} (getF : α → String → Option String)
    (x : α) (k v : String) (h : matchesFilt getF x [(k, v)] = true) :
    getF x k = some v := by
  simpa [matchesFilt] using h

/-- Every record of a list-endpoint answer comes from a stored pair that
matches the filter, with the identifier stringified. -/
lemma out_mem_of_list {α : Type} (docs : List (Nat × α))
    (getF : α → String → Option String) (filt : List (String × String))
    (lim : Int) (l : List (OutDoc α)) (d : OutDoc α)
    (hl : stringifyIds (get_documents docs getF filt lim) = l) (hd : d ∈ l) :
    ∃ p, p ∈ docs ∧ matchesFilt getF p.2 filt = true ∧
      d = { _id := toString p.1, data := p.2 } := by
  subst hl
  obtain ⟨p, hp, hdp⟩ := mem_stringifyIds _ d hd
  obtain ⟨hmem, hmatch⟩ := mem_get_documents getF docs filt lim p hp
  exact ⟨p, hmem, hmatch, hdp⟩

/-- With the empty filter, `get_documents` is a plain prefix of the store. -/
lemma get_documents_nil_filt {α : Type} (getF : α → String → Option String)
    (docs : List (Nat × α)) (lim : Int) :
    get_documents docs getF [] lim = docs.take lim.toNat := by
  simp [get_documents, matchesFilt]

/-! ## Theorems -/

/-- C1: For every valid `JobRequest` payload, `POST /jobs` stores a `Job`
whose status is `"New"` and whose timeline has exactly one entry with
status `"New"` seeded with the creation timestamp, and responds with the
generated job identifier and status `"New"`. -/
theorem create_job_stores_new_job_with_singleton_timeline :
    ∀ (db : DB) (req : JobRequest) (now : Timestamp),
      create_job (some db) req now =
        (HResp.ok { job_id := toString db.nextId, status := "New" },
         some { db with job := db.job ++ [(db.nextId, mkJob req now)],
                        nextId := db.nextId + 1 }) ∧
      (mkJob req now).status = "New" ∧
      (mkJob req now).timeline = [{ status := "New", «at» := now }] ∧
      (mkJob req now).timeline.length = 1 := by
  intro db req now
  exact ⟨rfl, rfl, rfl, rfl⟩

/-- C2 (failing input): the valid `Asset` body
`{site_id := "s1", name := "pump", type := "HVAC"}` makes `POST /assets`
raise `bson.errors.InvalidId` inside the handler — a 500 server error,
not a success — and nothing is persisted, contradicting both the claim
and the handler's own comment that a non-existing site id string is
still allowed. -/
theorem create_asset_invalid_objectid_500 :
    create_asset (some {}) { site_id := "s1", name := "pump", «type» := "HVAC" } =
      (HResp.serverError 500 "bson.errors.InvalidId", some {}) := by
  decide

/-- C3: an `Asset`, `JobRequest` (`POST /jobs` body) or `Invoice` payload
that misses a required field or carries an enum value outside its allowed
literal set is answered with a 422 client error, the value is not coerced,
and the store is unchanged (so any subsequent `GET` count is unchanged). -/
theorem invalid_payload_rejected_unpersisted :
    ∀ (db : DB) (now : Timestamp),
      (∀ p : AssetPayload,
        (p.site_id = none ∨ p.name = none ∨ p.«type» = none ∨
          ∃ s, p.status = some s ∧ s ∉ assetStatuses) →
        ∃ m, post_assets (some db) p = (HResp.clientError 422 m, some db)) ∧
      (∀ p : JobRequestPayload,
        (p.service_type = none ∨ p.site_id = none ∨
          ∃ s, p.service_type = some s ∧ s ∉ serviceTypes) →
        ∃ m, post_jobs (some db) p now = (HResp.clientError 422 m, some db)) ∧
      (∀ p : InvoicePayload,
        (p.job_id = none ∨ p.amount = none ∨
          ∃ s, p.status = some s ∧ s ∉ invoiceStatuses) →
        ∃ m, post_invoices (some db) p = (HResp.clientError 422 m, some db)) := by
  intro db now
  refine ⟨?_, ?_, ?_⟩
  · intro p h
    obtain ⟨m, hm⟩ := validateAsset_error_of_bad p h
    exact ⟨m, by unfold post_assets; rw [hm]⟩
  · intro p h
    obtain ⟨m, hm⟩ := validateJobRequest_error_of_bad p h
    exact ⟨m, by unfold post_jobs; rw [hm]⟩
  · intro p h
    obtain ⟨m, hm⟩ := validateInvoice_error_of_bad p h
    exact ⟨m, by unfold post_invoices; rw [hm]⟩

/-- Witness for C3: the `Asset` body missing its required `site_id` is
rejected with a 422 and the empty store stays empty. -/
theorem invalid_payload_rejected_unpersisted_witness :
    ∃ m, post_assets (some {}) { name := some "pump", «type» := some "HVAC" } =
      (HResp.clientError 422 m, some ({} : DB)) :=
  (invalid_payload_rejected_unpersisted {} "2025-01-01T00:00:00+00:00").1
    { name := some "pump", «type» := some "HVAC" } (Or.inl rfl)

/-- C4: `POST /feedback` rejects any payload whose `rating_overall` (or
present `rating_engineer`) lies outside `[1, 5]` with a client error and
no store write, and accepts the boundary values 1 and 5. -/
theorem feedback_rating_bounds :
    ∀ (db : DB) (p : FeedbackPayload) (r : Int) (j : String),
      (p.rating_overall = some r → r < 1 ∨ 5 < r →
        ∃ m, post_feedback (some db) p = (HResp.clientError 422 m, some db)) ∧
      (p.rating_engineer = some r → r < 1 ∨ 5 < r →
        ∃ m, post_feedback (some db) p = (HResp.clientError 422 m, some db)) ∧
      (post_feedback (some db)
          { job_id := some j, rating_overall := some 1, rating_engineer := some 5 } =
        (HResp.ok { _id := toString db.nextId },
         some { db with
                  feedback := db.feedback ++
                    [(db.nextId, { job_id := j, rating_overall := 1,
                                   rating_engineer := some 5 })],
                  nextId := db.nextId + 1 })) ∧
      (post_feedback (some db)
          { job_id := some j, rating_overall := some 5, rating_engineer := some 1 } =
        (HResp.ok { _id := toString db.nextId },
         some { db with
                  feedback := db.feedback ++
                    [(db.nextId, { job_id := j, rating_overall := 5,
                                   rating_engineer := some 1 })],
                  nextId := db.nextId + 1 })) := by
  intro db p r j
  refine ⟨?_, ?_, rfl, rfl⟩
  · intro hr hout
    obtain ⟨m, hm⟩ := validateFeedback_error_overall p r hr hout
    exact ⟨m, by unfold post_feedback; rw [hm]⟩
  · intro hr hout
    obtain ⟨m, hm⟩ := validateFeedback_error_engineer p r hr hout
    exact ⟨m, by unfold post_feedback; rw [hm]⟩

/-- Witness for C4: rating_overall 0 is rejected on the empty store. -/
theorem feedback_rating_bounds_witness :
    ∃ m, post_feedback (some {}) { job_id := some "j1", rating_overall := some 0 } =
      (HResp.clientError 422 m, some ({} : DB)) :=
  (feedback_rating_bounds {} { job_id := some "j1", rating_overall := some 0 } 0 "j1").1
    rfl (Or.inl (by decide))

/-- C5 (counterexample): the claim fails at the filter value `X = ""`:
on a store holding one asset with `site_id = "a"`, `GET /assets?site_id=`
(empty string) returns that asset, whose `site_id` does not equal the
requested `X`, because Python truthiness drops the empty-string filter. -/
theorem assets_filter_claim_counterexample :
    ¬ (∀ (db : DB) (X : String) (l : List (OutDoc Asset)) (d : OutDoc Asset),
        list_assets (some db) none (some X) = HResp.ok l → d ∈ l →
        d.data.site_id = X) := by
  intro h
  have hc := h dbA "" [{ _id := "0", data := assetA }] { _id := "0", data := assetA }
    (by decide) (by decide)
  exact absurd hc (by decide)

/-- C5 (amended): for every stored collection state and every non-empty
`X`, `GET /assets?site_id=X` returns only assets whose `site_id` equals
`X`, and `GET /jobs?status=Closed` returns only jobs whose status is
`Closed`; omitting the filter parameter returns records without
filtering. -/
theorem filters_return_only_matching_amended :
    ∀ (db : DB) (lim : Option Int) (X : String), X ≠ "" →
      (∀ (l : List (OutDoc Asset)) (d : OutDoc Asset),
        list_assets (some db) lim (some X) = HResp.ok l → d ∈ l →
        d.data.site_id = X) ∧
      (∀ (l : List (OutDoc Job)) (d : OutDoc Job),
        list_jobs (some db) lim (some "Closed") = HResp.ok l → d ∈ l →
        d.data.status = "Closed") ∧
      list_assets (some db) lim none =
        HResp.ok (stringifyIds (db.asset.take (lim.getD 200).toNat)) ∧
      list_jobs (some db) lim none =
        HResp.ok (stringifyIds (db.job.take (lim.getD 200).toNat)) := by
  intro db lim X hX
  refine ⟨?_, ?_, ?_, ?_⟩
  · intro l d hl hd
    have hf : mkFilt "site_id" (some X) = [("site_id", X)] := by
      simp [mkFilt, hX]
    simp only [list_assets, hf, HResp.ok.injEq] at hl
    obtain ⟨p, hmem, hmatch, rfl⟩ := out_mem_of_list _ _ _ _ _ d hl hd
    have hg := matchesFilt_singleton Asset.getField p.2 "site_id" X hmatch
    have hg2 : some p.2.site_id = some X := by
      have hfld : Asset.getField p.2 "site_id" = some p.2.site_id := rfl
      rw [← hfld]
      exact hg
    injection hg2 with h3
  · intro l d hl hd
    have hf : mkFilt "status" (some "Closed") = [("status", "Closed")] := by decide
    simp only [list_jobs, hf, HResp.ok.injEq] at hl
    obtain ⟨p, hmem, hmatch, rfl⟩ := out_mem_of_list _ _ _ _ _ d hl hd
    have hg := matchesFilt_singleton Job.getField p.2 "status" "Closed" hmatch
    have hg2 : some p.2.status = some "Closed" := by
      have hfld : Job.getField p.2 "status" = some p.2.status := rfl
      rw [← hfld]
      exact hg
    injection hg2 with h3
  · simp [list_assets, mkFilt, get_documents_nil_filt]
  · simp [list_jobs, mkFilt, get_documents_nil_filt]

/-- Witness for C5 (amended): on a store with one asset under `site_id "a"`,
the filtered listing returns a record whose `site_id` is `"a"`. -/
theorem filters_return_only_matching_amended_witness :
    ({ _id := "0", data := assetA } : OutDoc Asset).data.site_id = "a" :=
  (filters_return_only_matching_amended dbA none "a" (by decide)).1
    [{ _id := "0", data := assetA }] { _id := "0", data := assetA }
    (by decide) (by decide)

/-- C6: `GET /health` returns status `"ok"` together with the current
timestamp, for every store state including the unconfigured one. -/
theorem health_always_ok :
    ∀ (dbh : Option DB) (now : Timestamp),
      health dbh now = HResp.ok { status := "ok", time := now } := by
  intro dbh now
  rfl

/-- C7: with the store handle absent, every entity endpoint fails with the
fixed 500 `"Database not configured"` server error, while the diagnostic
endpoints (`/`, `/health`, `/echo`, `/test`, `/schema`) still succeed. -/
theorem db_absence_disables_entity_endpoints :
    ∀ (site : Site) (asset : Asset) (req : JobRequest) (inv : Invoice) (fb : Feedback)
      (now : Timestamp) (lim : Option Int) (sid st sti : Option String) (payload : JDict),
      create_site none site = (HResp.serverError 500 dbUnconfigured, none) ∧
      list_sites none lim = HResp.serverError 500 dbUnconfigured ∧
      create_asset none asset = (HResp.serverError 500 dbUnconfigured, none) ∧
      list_assets none lim sid = HResp.serverError 500 dbUnconfigured ∧
      create_job none req now = (HResp.serverError 500 dbUnconfigured, none) ∧
      list_jobs none lim st = HResp.serverError 500 dbUnconfigured ∧
      create_invoice none inv = (HResp.serverError 500 dbUnconfigured, none) ∧
      list_invoices none lim sti = HResp.serverError 500 dbUnconfigured ∧
      submit_feedback none fb = (HResp.serverError 500 dbUnconfigured, none) ∧
      read_root = HResp.ok { message := "Hello from Cueron Backend!" } ∧
      health none now = HResp.ok { status := "ok", time := now } ∧
      echo payload now = HResp.ok { received := payload, time := now } ∧
      test_database none = HResp.ok { backend := "✅ Running",
                                      database := "❌ Not Initialized",
                                      connection_status := "Not Connected",
                                      collections := [] } ∧
      schema_info = HResp.ok ["site", "asset", "job", "invoice", "feedback"] := by
  intro site asset req inv fb now lim sid st sti payload
  exact ⟨rfl, rfl, rfl, rfl, rfl, rfl, rfl, rfl, rfl, rfl, rfl, rfl, rfl, rfl⟩

/-- C8: every list endpoint applies its bounded default limit when none is
supplied (100 for sites, 200 for assets, jobs and invoices), builds at
most one equality filter field (none for sites), and converts the
store-generated identifier of every returned record to a string. -/
theorem list_endpoints_shape :
    ∀ (db : DB) (lim : Option Int) (sid st sti : Option String),
      list_sites (some db) none = list_sites (some db) (some 100) ∧
      list_assets (some db) none sid = list_assets (some db) (some 200) sid ∧
      list_jobs (some db) none st = list_jobs (some db) (some 200) st ∧
      list_invoices (some db) none sti = list_invoices (some db) (some 200) sti ∧
      list_sites (some db) lim =
        HResp.ok (stringifyIds (db.site.take (lim.getD 100).toNat)) ∧
      (∀ k v, (mkFilt k v).length ≤ 1) ∧
      (∀ (l : List (OutDoc Asset)) (d : OutDoc Asset),
        list_assets (some db) lim sid = HResp.ok l → d ∈ l →
        ∃ p, p ∈ db.asset ∧ d._id = toString p.1 ∧ d.data = p.2) ∧
      (∀ (l : List (OutDoc Job)) (d : OutDoc Job),
        list_jobs (some db) lim st = HResp.ok l → d ∈ l →
        ∃ p, p ∈ db.job ∧ d._id = toString p.1 ∧ d.data = p.2) ∧
      (∀ (l : List (OutDoc Invoice)) (d : OutDoc Invoice),
        list_invoices (some db) lim sti = HResp.ok l → d ∈ l →
        ∃ p, p ∈ db.invoice ∧ d._id = toString p.1 ∧ d.data = p.2) ∧
      (∀ (l : List (OutDoc Site)) (d : OutDoc Site),
        list_sites (some db) lim = HResp.ok l → d ∈ l →
        ∃ p, p ∈ db.site ∧ d._id = toString p.1 ∧ d.data = p.2) := by
  intro db lim sid st sti
  refine ⟨rfl, rfl, rfl, rfl, ?_, ?_, ?_, ?_, ?_, ?_⟩
  · simp [list_sites, get_documents_nil_filt]
  · intro k v
    cases v with
    | none => simp [mkFilt]
    | some s => by_cases hs : s = "" <;> simp [mkFilt, hs]
  · intro l d hl hd
    simp only [list_assets, HResp.ok.injEq] at hl
    obtain ⟨p, hmem, _, rfl⟩ := out_mem_of_list _ _ _ _ _ d hl hd
    exact ⟨p, hmem, rfl, rfl⟩
  · intro l d hl hd
    simp only [list_jobs, HResp.ok.injEq] at hl
    obtain ⟨p, hmem, _, rfl⟩ := out_mem_of_list _ _ _ _ _ d hl hd
    exact ⟨p, hmem, rfl, rfl⟩
  · intro l d hl hd
    simp only [list_invoices, HResp.ok.injEq] at hl
    obtain ⟨p, hmem, _, rfl⟩ := out_mem_of_list _ _ _ _ _ d hl hd
    exact ⟨p, hmem, rfl, rfl⟩
  · intro l d hl hd
    simp only [list_sites, HResp.ok.injEq] at hl
    obtain ⟨p, hmem, _, rfl⟩ := out_mem_of_list _ _ _ _ _ d hl hd
    exact ⟨p, hmem, rfl, rfl⟩

/-- Witness for C8: on a store with one site under identifier 0, the
record returned by `GET /sites` carries the stringified identifier. -/
theorem list_endpoints_shape_witness :
    ∃ p, p ∈ dbC.site ∧ ({ _id := "0", data := siteC } : OutDoc Site)._id = toString p.1 ∧
      ({ _id := "0", data := siteC } : OutDoc Site).data = p.2 :=
  (list_endpoints_shape dbC none none none none).2.2.2.2.2.2.2.2.2
    [{ _id := "0", data := siteC }] { _id := "0", data := siteC }
    (by decide) (by decide)

/-- C9: `POST /jobs` discards `media_urls` — the synthesized `Job` (and
hence the whole endpoint result) is unchanged under any rewrite of the
request's `media_urls` — and `customer_id` and `assigned_technician_id`
are always `null` regardless of input. -/
theorem create_job_ignores_media_urls_and_nulls_ids :
    ∀ (req : JobRequest) (urls : List String) (now : Timestamp) (dbh : Option DB),
      (mkJob req now).customer_id = none ∧
      (mkJob req now).assigned_technician_id = none ∧
      mkJob { req with media_urls := urls } now = mkJob req now ∧
      create_job dbh { req with media_urls := urls } now = create_job dbh req now := by
  intro req urls now dbh
  exact ⟨rfl, rfl, rfl, rfl⟩

/-- C10: supplying the filter parameter as the empty string is treated by
`GET /assets`, `GET /jobs` and `GET /invoices` exactly like omitting it:
the Python-truthiness filter construction yields the empty mapping. -/
theorem empty_string_filter_is_unfiltered :
    ∀ (dbh : Option DB) (lim : Option Int),
      list_assets dbh lim (some "") = list_assets dbh lim none ∧
      list_jobs dbh lim (some "") = list_jobs dbh lim none ∧
      list_invoices dbh lim (some "") = list_invoices dbh lim none := by
  intro dbh lim
  refine ⟨?_, ?_, ?_⟩ <;> simp [list_assets, list_jobs, list_invoices, mkFilt]

end Cueron
